import Mathlib

/-!
Verification of the style-profiling engine of `anatomie-labs`
(`src/python-ml-service/services/style_profiler.py`).

The Python class `StyleProfiler` is embedded shallowly:

* Python dicts become insertion-ordered association lists
  (`List (String × _)`), matching Python 3.7+ dict iteration order;
* floats that only ever hold exact values (one-hot entries, percentages,
  probabilities) become `ℚ`;
* the mutable state of the profiler (`self.profiles` cache, joblib files on
  disk) becomes an explicit `ProfilerState` threaded through the
  operations;
* raised exceptions become `Except PErr`;
* the scikit-learn estimators (StandardScaler, PCA, GaussianMixture,
  RandomForest) are third-party library calls, not code of this
  repository.  They are modelled by their interface contract: the
  deterministic shape validation they perform on their inputs, the shapes
  they return, and (for the mixture model) the fact that fitting is a
  deterministic function of the data and of the effective random seed
  (`random_state` when supplied, ambient entropy otherwise).  The numeric
  values they produce are irrelevant to every claim below and are given
  by simple deterministic surrogates, clearly marked at each definition.
-/

/-! ## Generic helpers (Python dict / list primitives) -/

/-- Lookup in an insertion-ordered association list: Python `d[k]` / `d.get(k)`. -/
def lookupA {α : Type} (l : List (String × α)) (k : String) : Option α :=
  (l.find? (fun p => p.1 == k)).map (fun p => p.2)

/-- Replace the value at a key, or append the binding: Python `d[k] = v`. -/
def updateA {α : Type} : List (String × α) → String → α → List (String × α)
  | [], k, v => [(k, v)]
  | (k0, v0) :: t, k, v =>
      if k0 == k then (k, v) :: t else (k0, v0) :: updateA t k v

/-- Increment an integer counter dict entry: Python `defaultdict(int); d[k] += 1`. -/
def bumpA : List (String × Nat) → String → List (String × Nat)
  | [], k => [(k, 1)]
  | (k0, n) :: t, k =>
      if k0 == k then (k0, n + 1) :: t else (k0, n) :: bumpA t k

/-- Add a value to an insertion-ordered set: Python `s.add(v)` on a `set`
(CPython sets have no observable order guarantee; the only consumer sorts
the values, so insertion order as the internal order is harmless). -/
def addVal (l : List String) (v : String) : List String :=
  if l.contains v then l else l ++ [v]

/-- Add one categorical value under a key: the nested set insert performed
by the vocabulary-collection loop of the extractor. -/
def addVocab : List (String × List String) → String → String → List (String × List String)
  | [], k, v => [(k, [v])]
  | (k0, vs) :: t, k, v =>
      if k0 == k then (k0, addVal vs v) :: t else (k0, vs) :: addVocab t k v

/-- Increment a per-value counter: inner dict of `defaultdict(lambda: defaultdict(int))`. -/
def bumpVal : List (String × Nat) → String → List (String × Nat)
  | [], v => [(v, 1)]
  | (v0, n) :: t, v =>
      if v0 == v then (v0, n + 1) :: t else (v0, n) :: bumpVal t v

/-- Count one occurrence of a value under a key: the nested counter
increment performed by the dominant-attribute loop. -/
def bump2 : List (String × List (String × Nat)) → String → String → List (String × List (String × Nat))
  | [], k, v => [(k, [(v, 1)])]
  | (k0, cs) :: t, k, v =>
      if k0 == k then (k0, bumpVal cs v) :: t else (k0, cs) :: bump2 t k v

/-- Insert `x` into `l` directly before the first element `y` with `lt x y`.
Used to build a stable sort (ties keep their relative order, matching the
stability guarantee of the CPython sort builtins). -/
def insertOrd {α : Type} (lt : α → α → Bool) (x : α) : List α → List α
  | [] => [x]
  | y :: ys => if lt x y then x :: y :: ys else y :: insertOrd lt x ys

/-- Stable insertion sort with strict comparison `lt`; models the stable
CPython sort (ascending when `lt` is an ascending strict order,
descending — as in a reversed keyed sort — when `lt` is the reversed
strict order). -/
def sortByOrd {α : Type} (lt : α → α → Bool) (l : List α) : List α :=
  l.foldl (fun acc x => insertOrd lt x acc) []

/-- Lexicographic comparison of character lists by code point. -/
def strLtChars : List Char → List Char → Bool
  | [], [] => false
  | [], _ :: _ => true
  | _ :: _, [] => false
  | a :: as, b :: bs =>
      if a.toNat < b.toNat then true
      else if b.toNat < a.toNat then false
      else strLtChars as bs

/-- Strict string comparison used by the Python sort builtin on strings:
lexicographic by code point. -/
def strLtB (a b : String) : Bool := strLtChars a.toList b.toList

/-- Join string parts with single spaces (the Python join on a space). -/
def joinSpace : List String → String
  | [] => ""
  | [s] => s
  | s :: rest => s ++ " " ++ joinSpace rest

/-- Character-list matching helper for the Python substring test. -/
def startsWithChars : List Char → List Char → Bool
  | [], _ => true
  | _ :: _, [] => false
  | a :: as, b :: bs => a == b && startsWithChars as bs

/-- Does some suffix of the haystack start with the needle? -/
def containsAt (n : List Char) : List Char → Bool
  | [] => startsWithChars n []
  | h :: t => startsWithChars n (h :: t) || containsAt n t

/-- Python `needle in hay` on strings (substring containment). -/
def hasSub (needle hay : String) : Bool := containsAt needle.toList hay.toList

/-- Python `str.title()`: an alphabetic character is uppercased when the
previous character is not alphabetic, lowercased otherwise. -/
def titleChars : List Char → Bool → List Char
  | [], _ => []
  | c :: t, prev =>
      (if c.isAlpha then (if prev then c.toLower else c.toUpper) else c) ::
        titleChars t c.isAlpha

/-- Python `s.title()`. -/
def titleStr (s : String) : String := String.mk (titleChars s.toList false)

/-- Arithmetic mean of a list of rationals; numpy `arr.mean()`.  On an
empty slice numpy emits NaN with a warning rather than raising; NaN is not
representable in `ℚ` and no claim inspects that value, so the empty case is
given the conventional value 0. -/
def meanQ (l : List ℚ) : ℚ := if l.length = 0 then 0 else l.sum / l.length

/-! ## Data model -/

/-- One VLT record (`Dict[str, Any]` in the source): nested optional
string-valued mappings.  Any field may be absent. -/
structure VLTRecord where
  id : Option String := none
  imageId : Option String := none
  garment_type : Option String := none
  attributes : List (String × String) := []
  colors : List (String × String) := []
  style : List (String × String) := []
deriving DecidableEq

instance : Inhabited VLTRecord := ⟨{}⟩

/-- One style cluster, as assembled by `_analyze_clusters`. -/
structure Cluster where
  id : Nat
  size : Nat
  percentage : ℚ
  dominant_attributes : List (String × String × Nat)
  centroid_confidence : ℚ
  representative_records : List String
  style_summary : String
deriving DecidableEq

instance : Inhabited Cluster := ⟨⟨0, 0, 0, [], 0, [], ""⟩⟩

/-- The dict returned by `_compute_statistics`. -/
structure Stats where
  garment_distribution : List (String × Nat)
  color_distribution : List (String × Nat)
  style_distribution : List (String × Nat)
  diversity_score : ℚ
  largest_cluster_percentage : ℚ
deriving DecidableEq

/-- The profile dict assembled by `create_profile` / mutated by `update_profile`. -/
structure Profile where
  user_id : String
  n_records : Nat
  n_clusters : Nat
  clusters : List Cluster
  statistics : Stats
  feature_importance : List (String × ℚ)
  created_at : String
  updated_at : String
deriving DecidableEq

/-- The fitted-model triple persisted by `_save_profile` and reloaded by
`_load_models`.  Of the fitted scikit-learn estimators only the data
needed to reproduce their transform/predict interface behaviour is kept:
the expected column count of the scaler, the PCA output width, and the
component count and seed of the mixture model. -/
structure StoredModels where
  scalerDim : Nat
  pcaK : Nat
  gmmK : Nat
  gmmSeed : Nat
deriving DecidableEq

/-- Mutable state of a `StyleProfiler` instance: the in-memory profile
cache `self.profiles`, plus the joblib files under `models_dir` (one
profile record and one models record per user id). -/
structure ProfilerState where
  profiles : List (String × Profile)
  disk : List (String × Profile)
  modelsDisk : List (String × StoredModels)
deriving DecidableEq

/-- A freshly constructed `StyleProfiler()` with an empty models dir. -/
def initState : ProfilerState := ⟨[], [], []⟩

/-- Failure taxonomy.  The spec names `InsufficientData` and
`ProfileNotFound`; the code raises `ValueError` for the missing-profile
case and lets scikit-learn validation errors propagate (`libraryError`).
No code path produces `insufficientData`; the constructor exists so that
the taxonomy of the spec can be stated. -/
inductive PErr where
  | insufficientData
  | profileNotFound (userId : String)
  | libraryError (msg : String)
deriving DecidableEq

/-! ## Feature extraction (`_extract_features`) -/

/-- The six keys scanned inside the attributes mapping of a record. -/
def attrKeys : List String :=
  ["silhouette", "neckline", "sleeveLength", "length", "waistline", "fabrication"]

/-- The four keys scanned inside the style mapping of a record. -/
def styleKeys : List String := ["overall", "formality", "aesthetic", "mood"]

/-- One iteration of the vocabulary-collection loop of `_extract_features`:
record the categorical values the record exhibits. -/
def record_vocab (voc : List (String × List String)) (r : VLTRecord) :
    List (String × List String) :=
  let voc := attrKeys.foldl
    (fun acc k =>
      match lookupA r.attributes k with
      | some v => addVocab acc k v
      | none => acc) voc
  let voc :=
    match lookupA r.colors "primary" with
    | some v => addVocab voc "primary_color" v
    | none => voc
  let voc :=
    match lookupA r.colors "finish" with
    | some v => addVocab voc "finish" v
    | none => voc
  styleKeys.foldl
    (fun acc k =>
      match lookupA r.style k with
      | some v => addVocab acc k v
      | none => acc) voc

/-- The per-batch vocabulary `categorical_values` of `_extract_features`. -/
def collect_vocab (records : List VLTRecord) : List (String × List String) :=
  records.foldl record_vocab []

/-- One entry of a one-hot feature row: 1.0 when the field of the record
equals the vocabulary value, else 0.0.  Mirrors the branch on the key in
the encoding loop of the extractor (for the style keys, which contain no
underscore, the split-on-underscore fallback in the source reduces to the
key itself). -/
def encodeCell (r : VLTRecord) (key value : String) : ℚ :=
  if attrKeys.contains key then
    (if lookupA r.attributes key == some value then 1 else 0)
  else if key == "primary_color" then
    (if lookupA r.colors "primary" == some value then 1 else 0)
  else if key == "finish" then
    (if lookupA r.colors "finish" == some value then 1 else 0)
  else
    (if lookupA r.style key == some value then 1 else 0)

/-- One feature row: for every vocabulary key in insertion order and every
value of that key in ascending string order, the one-hot entry. -/
def featureRow (voc : List (String × List String)) (r : VLTRecord) : List ℚ :=
  voc.flatMap (fun p => (sortByOrd strLtB p.2).map (fun v => encodeCell r p.1 v))

/-- The column names, one per key and value, joined by an underscore
(built during the loop over the first record in the source; identical for
every record of the batch). -/
def featureNames (voc : List (String × List String)) : List String :=
  voc.flatMap (fun p => (sortByOrd strLtB p.2).map (fun v => p.1 ++ "_" ++ v))

/-- Embedding of `_extract_features`: the one-hot matrix (one row per
record) and the ordered column names. -/
def extract_features (records : List VLTRecord) : List (List ℚ) × List String :=
  let voc := collect_vocab records
  (records.map (featureRow voc), featureNames voc)

/-! ## Dominant attributes (`_find_dominant_attributes`) -/

/-- One iteration of the counting loop of `_find_dominant_attributes`. -/
def record_counts (acc : List (String × List (String × Nat))) (r : VLTRecord) :
    List (String × List (String × Nat)) :=
  let acc := r.attributes.foldl (fun a p => bump2 a p.1 p.2) acc
  let acc :=
    match lookupA r.colors "primary" with
    | some c => bump2 acc "color" c
    | none => acc
  r.style.foldl (fun a p => bump2 a ("style_" ++ p.1) p.2) acc

/-- Python `max(values.items(), key=lambda x: x[1])`: the first maximal
pair in iteration order (`max` keeps the earlier element on ties). -/
def maxPair : List (String × Nat) → String × Nat
  | [] => ("", 0)
  | h :: t => t.foldl (fun best x => if best.2 < x.2 then x else best) h

/-- Embedding of `_find_dominant_attributes`: most common value (with its
count) per attribute among the given records. -/
def find_dominant_attributes (records : List VLTRecord) :
    List (String × String × Nat) :=
  (records.foldl record_counts []).map (fun p => (p.1, maxPair p.2))

/-! ## Style naming (`_summarize_cluster_style`) -/

/-- Read one dominant attribute for the style namer: the lowercased value
component stored at the key when the key is present, else the unknown
marker (mirrors the guarded dict get with default in the source). -/
def getDom (d : List (String × String × Nat)) (key : String) : String :=
  match lookupA d key with
  | some v => v.1.toLower
  | none => "unknown"

/-- The seven fixed archetype names of `_summarize_cluster_style`. -/
def archetypeNames : List String :=
  ["Minimalist Tailoring", "Fluid Evening", "Experimental Edge", "Sporty Chic",
   "Romantic Bohemian", "Urban Contemporary", "Classic Refined"]

/-- The `style_parts` list assembled in the fallback branch of
`_summarize_cluster_style`: one part from aesthetic / overall style /
a constant, then one part from silhouette / fabrication / a constant. -/
def fallbackParts (aesthetic overallStyle silhouette fabrication : String) :
    List String :=
  let parts : List String := []
  let parts :=
    if aesthetic != "unknown" then parts ++ [titleStr aesthetic]
    else if overallStyle != "unknown" then parts ++ [titleStr overallStyle]
    else parts ++ ["Contemporary"]
  if silhouette != "unknown" && ["tailored", "structured"].contains silhouette then
    parts ++ ["Tailoring"]
  else if silhouette != "unknown" && ["fluid", "flowing", "draped"].contains silhouette then
    parts ++ ["Flow"]
  else if fabrication != "unknown" then parts ++ [titleStr fabrication]
  else parts ++ ["Mix"]

/-- Embedding of `_summarize_cluster_style`: rule-based archetype lookup
over the dominant attributes, with a composed-name fallback and a generic
placeholder behind it. -/
def summarize_cluster_style (d : List (String × String × Nat)) : String :=
  let overallStyle := getDom d "style_overall"
  let aesthetic := getDom d "style_aesthetic"
  let silhouette := getDom d "silhouette"
  let color := getDom d "color"
  let fabrication := getDom d "fabrication"
  let formality := getDom d "style_formality"
  if hasSub "minimalist" aesthetic || hasSub "clean" aesthetic ||
     hasSub "structured" silhouette || hasSub "tailored" silhouette ||
     hasSub "professional" overallStyle || hasSub "formal" formality ||
     hasSub "wool" fabrication || hasSub "suiting" fabrication then
    "Minimalist Tailoring"
  else if hasSub "elegant" aesthetic || hasSub "sophisticated" aesthetic ||
     hasSub "fluid" silhouette || hasSub "flowing" silhouette ||
     hasSub "a-line" silhouette || hasSub "evening" overallStyle ||
     hasSub "formal" overallStyle || hasSub "silk" fabrication ||
     hasSub "charmeuse" fabrication || hasSub "glossy" color then
    "Fluid Evening"
  else if hasSub "experimental" aesthetic || hasSub "avant" aesthetic ||
     hasSub "edgy" aesthetic || hasSub "deconstructed" silhouette ||
     hasSub "asymmetric" silhouette || hasSub "technical" fabrication ||
     hasSub "innovative" fabrication || hasSub "unconventional" overallStyle then
    "Experimental Edge"
  else if hasSub "sporty" aesthetic || hasSub "athletic" aesthetic ||
     hasSub "casual" aesthetic || hasSub "relaxed" silhouette ||
     hasSub "loose" silhouette || hasSub "sporty" overallStyle ||
     hasSub "casual" overallStyle || hasSub "jersey" fabrication ||
     hasSub "knit" fabrication then
    "Sporty Chic"
  else if hasSub "romantic" aesthetic || hasSub "bohemian" aesthetic ||
     hasSub "feminine" aesthetic || hasSub "flowing" silhouette ||
     hasSub "draped" silhouette || hasSub "boho" overallStyle ||
     hasSub "artistic" overallStyle || hasSub "chiffon" fabrication ||
     hasSub "lace" fabrication then
    "Romantic Bohemian"
  else if hasSub "contemporary" aesthetic || hasSub "modern" aesthetic ||
     hasSub "urban" aesthetic || hasSub "versatile" overallStyle ||
     hasSub "smart-casual" overallStyle || hasSub "cotton" fabrication ||
     hasSub "denim" fabrication then
    "Urban Contemporary"
  else if hasSub "classic" aesthetic || hasSub "refined" aesthetic ||
     hasSub "traditional" aesthetic || hasSub "fitted" silhouette ||
     hasSub "traditional" silhouette || hasSub "business" overallStyle ||
     hasSub "polished" overallStyle then
    "Classic Refined"
  else
    let parts := fallbackParts aesthetic overallStyle silhouette fabrication
    if parts.length ≥ 2 then joinSpace (parts.take 2)
    else
      match parts with
      | [] => "Mixed Style"
      | p :: _ => p

/-! ## Cluster analysis (`_analyze_clusters`, `_find_representative_records`) -/

/-- Records of the batch falling in cluster `c` (the `cluster_mask` rows). -/
def clusterMembers (records : List VLTRecord) (labels : List Nat) (c : Nat) :
    List VLTRecord :=
  ((labels.zip records).filter (fun q => q.1 == c)).map (fun q => q.2)

/-- The rows of the membership matrix belonging to cluster members,
projected to the cluster column. -/
def memberProbs (labels : List Nat) (probs : List (List ℚ)) (c : Nat) : List ℚ :=
  ((labels.zip probs).filter (fun q => q.1 == c)).map (fun q => q.2.getD c 0)

/-- Identifier of a record: its imageId, else its id, else a positional
fallback name composed of the word record and the index. -/
def recordIdent (r : VLTRecord) (i : Nat) : String :=
  match r.imageId with
  | some s => s
  | none =>
    match r.id with
    | some s => s
    | none => "record_" ++ toString i

/-- Embedding of `_find_representative_records`: indices of the (up to) 3 highest
membership probabilities, in descending order, mapped to record
identifiers.  numpy `argsort` breaks ties in an unspecified but
deterministic way; it is modelled as a stable ascending sort. -/
def find_representative_records (records : List VLTRecord) (probs : List ℚ) :
    List String :=
  let sorted := sortByOrd (fun a b => decide (a.2 < b.2)) probs.enum
  let top := (sorted.drop (sorted.length - 3)).reverse
  top.filterMap (fun p => (records.get? p.1).map (fun r => recordIdent r p.1))

/-- numpy `labels.max()` (labels are naturals; 0 stands in for the empty
case, which `create_profile` never reaches). -/
def labelsMax (labels : List Nat) : Nat := labels.foldl max 0

/-- The `cluster_info` dict built for one `cluster_id` inside the loop of
`_analyze_clusters`. -/
def clusterOf (records : List VLTRecord) (labels : List Nat)
    (probs : List (List ℚ)) (c : Nat) : Cluster :=
  { id := c,
    size := labels.count c,
    percentage := (labels.count c : ℚ) / (records.length : ℚ) * 100,
    dominant_attributes := find_dominant_attributes (clusterMembers records labels c),
    centroid_confidence := meanQ (memberProbs labels probs c),
    representative_records :=
      find_representative_records (clusterMembers records labels c)
        (memberProbs labels probs c),
    style_summary :=
      summarize_cluster_style (find_dominant_attributes (clusterMembers records labels c)) }

/-- Embedding of `_analyze_clusters`: one `Cluster` per hard label,
returned in descending size order (stable sort, as `list.sort` with
`reverse=True`).  `features` and `feature_names` are accepted but unused,
exactly as in the source. -/
def analyze_clusters (records : List VLTRecord) (labels : List Nat)
    (probs : List (List ℚ)) (_features : List (List ℚ))
    (_feature_names : List String) : List Cluster :=
  let base := (List.range (labelsMax labels + 1)).map (clusterOf records labels probs)
  sortByOrd (fun a b => decide (b.size < a.size)) base

/-! ## Statistics and feature importance -/

/-- Embedding of `_compute_statistics`. -/
def compute_statistics (records : List VLTRecord) (clusters : List Cluster) :
    Stats :=
  { garment_distribution :=
      records.foldl (fun a r => bumpA a (r.garment_type.getD "unknown")) [],
    color_distribution :=
      records.foldl (fun a r =>
        match lookupA r.colors "primary" with
        | some v => bumpA a v
        | none => a) [],
    style_distribution :=
      records.foldl (fun a r =>
        match lookupA r.style "overall" with
        | some v => bumpA a v
        | none => a) [],
    diversity_score :=
      if records.length = 0 then 0
      else (clusters.length : ℚ) / (records.length : ℚ),
    largest_cluster_percentage :=
      match clusters.map (fun c => c.percentage) with
      | [] => 0
      | h :: t => t.foldl max h }

/-- Embedding of `_compute_feature_importance`.  The RandomForest
importances are library numerics not determined by the code of this
repository; only the
"fewer than 2 distinct labels yields an empty map" branch is source
logic.  The fitted importances are modelled by an unspecified
deterministic surrogate (every kept feature weighted 0), truncated to the
top 10 as in the source. -/
def compute_feature_importance (_features : List (List ℚ))
    (feature_names : List String) (labels : List Nat) : List (String × ℚ) :=
  if labels.dedup.length < 2 then []
  else (feature_names.map (fun n => (n, (0 : ℚ)))).take 10

/-! ## scikit-learn stage models

`StandardScaler`, `PCA` and `GaussianMixture` are external library code.
Each is modelled by its deterministic interface contract: the input-shape
validation `check_array` performs (at least 1 sample and at least 1
feature, and for `transform` a column count matching the fitted one), the
output shape, and determinism as a function of the input and of the
effective seed.  The numeric content of the transforms is irrelevant to
every claim below; values are passed through unchanged (scaler) or
truncated to the output width (PCA). -/

/-- Model of the scaler fit: rejects an empty sample or
feature axis, otherwise records the fitted column count and returns a
same-shape matrix. -/
def scalerFitTransform (x : List (List ℚ)) : Except PErr (Nat × List (List ℚ)) :=
  if x.length = 0 then
    .error (.libraryError "StandardScaler.fit: 0 samples")
  else if (x.headD []).length = 0 then
    .error (.libraryError "StandardScaler.fit: 0 features")
  else .ok ((x.headD []).length, x)

/-- Model of the fitted scaler transform on `dim` columns. -/
def scalerTransform (dim : Nat) (x : List (List ℚ)) : Except PErr (List (List ℚ)) :=
  if x.length = 0 then
    .error (.libraryError "StandardScaler.transform: 0 samples")
  else if (x.headD []).length = 0 then
    .error (.libraryError "StandardScaler.transform: 0 features")
  else if (x.headD []).length ≠ dim then
    .error (.libraryError "StandardScaler.transform: feature count mismatch")
  else .ok x

/-- Model of the PCA fit: the component count computed in
`create_profile` (the minimum of 10, the sample count and the feature
count) and a matrix of that width. -/
def pcaFitTransform (x : List (List ℚ)) : Nat × List (List ℚ) :=
  let k := min 10 (min x.length (x.headD []).length)
  (k, x.map (fun row => row.take k))

/-- Model of the fitted PCA transform with `k` components. -/
def pcaTransform (k : Nat) (x : List (List ℚ)) : List (List ℚ) :=
  x.map (fun row => row.take k)

/-- Model of the mixture-model fit, hard prediction and soft membership
matrix.  Library contract modelled: fitting fails on an invalid
component count or on fewer samples than components; otherwise it is a
deterministic function of the data and of the effective seed — the given
`random_state` when present, the ambient OS entropy otherwise — returning
one label in `0 .. k-1` per row and a row-stochastic membership matrix.
The concrete assignment is an unspecified deterministic surrogate. -/
def gmmFitPredict (randomState : Option Nat) (entropy : Nat) (k : Nat)
    (x : List (List ℚ)) : Except PErr (List Nat × List (List ℚ)) :=
  if k = 0 then
    .error (.libraryError "GaussianMixture: n_components must be at least 1")
  else if x.length < k then
    .error (.libraryError "GaussianMixture: fewer samples than components")
  else
    let s := randomState.getD entropy
    let labels := (List.range x.length).map (fun i => (i + s) % k)
    .ok (labels, labels.map (fun l =>
      (List.range k).map (fun j => if j = l then (1 : ℚ) else 0)))

/-- Model of prediction with the stored fitted mixture model: the same
deterministic surrogate assignment, now a pure function of the stored
seed and the data. -/
def gmmPredict (seed k : Nat) (x : List (List ℚ)) : List Nat × List (List ℚ) :=
  let labels := (List.range x.length).map (fun i => (i + seed) % k)
  (labels, labels.map (fun l =>
    (List.range k).map (fun j => if j = l then (1 : ℚ) else 0)))

/-! ## Profile store (`create_profile`, `get_profile`, `update_profile`) -/

/-- The cluster-count clamp at the top of `create_profile`: fewer records
than requested clusters reduces the component count to `max(1, n_records)`. -/
def clampClusters (nRecords nClusters : Nat) : Nat :=
  if nRecords < nClusters then max 1 nRecords else nClusters

/-- The fitting pipeline of `create_profile` (extract, scale, reduce,
fit): the fitted scaler column count, the PCA width, the hard labels and
the membership matrix. -/
def fitPipeline (entropy : Nat) (records : List VLTRecord) (nClusters : Nat) :
    Except PErr (Nat × Nat × List Nat × List (List ℚ)) :=
  match scalerFitTransform (extract_features records).1 with
  | .error e => .error e
  | .ok (dim, xs) =>
    match gmmFitPredict (some 42) entropy (clampClusters records.length nClusters)
        (pcaFitTransform xs).2 with
    | .error e => .error e
    | .ok (labels, probs) => .ok (dim, (pcaFitTransform xs).1, labels, probs)

/-- Embedding of `_save_profile`: rewrite the two per-user joblib records. -/
def save_profile (st : ProfilerState) (uid : String) (p : Profile)
    (m : StoredModels) : ProfilerState :=
  { st with disk := updateA st.disk uid p,
            modelsDisk := updateA st.modelsDisk uid m }

/-- The profile dict assembled at the end of `create_profile`. -/
def assembled_profile (now uid : String) (records : List VLTRecord)
    (nClusters : Nat) (labels : List Nat) (probs : List (List ℚ)) : Profile :=
  { user_id := uid,
    n_records := records.length,
    n_clusters := clampClusters records.length nClusters,
    clusters := analyze_clusters records labels probs
      (extract_features records).1 (extract_features records).2,
    statistics := compute_statistics records
      (analyze_clusters records labels probs
        (extract_features records).1 (extract_features records).2),
    feature_importance := compute_feature_importance
      (extract_features records).1 (extract_features records).2 labels,
    created_at := now,
    updated_at := now }

/-- Embedding of `_save_profile` followed by the cache write of the
profile under the user id. -/
def saveAndCache (st : ProfilerState) (uid : String) (p : Profile)
    (m : StoredModels) : ProfilerState :=
  { save_profile st uid p m with
    profiles := updateA (save_profile st uid p m).profiles uid p }

/-- Embedding of `create_profile`, instrumented with a trace of the
computation stages actually entered (used to express before and after
which stage a call aborts).  `entropy` is the ambient OS randomness
available to the library fits (the source pins the random state to 42, so
it is never consulted); `now` is the numpy wall-clock timestamp string. -/
def create_profileT (entropy : Nat) (now : String) (st : ProfilerState)
    (uid : String) (records : List VLTRecord) (nClusters : Nat) :
    Except PErr (Profile × ProfilerState) × List String :=
  match fitPipeline entropy records nClusters with
  | .error e => (.error e, ["extract_features", "fit_models"])
  | .ok (dim, pk, labels, probs) =>
    (.ok (assembled_profile now uid records nClusters labels probs,
          saveAndCache st uid (assembled_profile now uid records nClusters labels probs)
            ⟨dim, pk, clampClusters records.length nClusters, 42⟩),
     ["extract_features", "fit_models", "analyze_clusters", "save_profile"])

/-- Embedding of `create_profile` (result only). -/
def create_profile (entropy : Nat) (now : String) (st : ProfilerState)
    (uid : String) (records : List VLTRecord) (nClusters : Nat) :
    Except PErr (Profile × ProfilerState) :=
  (create_profileT entropy now st uid records nClusters).1

/-- Embedding of `get_profile`: cached profile, else load from disk
(populating the cache), else a not-found sentinel. -/
def get_profile (st : ProfilerState) (uid : String) :
    Option Profile × ProfilerState :=
  match lookupA st.profiles uid with
  | some p => (some p, st)
  | none =>
    match lookupA st.disk uid with
    | some p => (some p, { st with profiles := updateA st.profiles uid p })
    | none => (none, st)

/-- Embedding of `_get_all_vlt_records`: the database fetch is
unimplemented in the source (a TODO comment) and always returns an empty
list. -/
def get_all_vlt_records (_uid : String) : List VLTRecord := []

/-- Embedding of `_update_cluster_stats`: walk the stored cluster list with
`enumerate`, matching each new label against the *list position*; a
position that received new records gets its size counter incremented and
its dominant attributes recomputed from those new records alone. -/
def update_cluster_stats (existingClusters : List Cluster)
    (newRecords : List VLTRecord) (newLabels : List Nat)
    (_newProbs : List (List ℚ)) (_newFeatures : List (List ℚ))
    (_featureNames : List String) : List Cluster :=
  existingClusters.enum.map (fun q =>
    let members := ((newLabels.zip newRecords).filter
      (fun w => w.1 == q.1)).map (fun w => w.2)
    if members.length ≠ 0 then
      { q.2 with size := q.2.size + members.length,
                 dominant_attributes := find_dominant_attributes members }
    else q.2)

/-- The cluster list produced inside `update_profile` once the new batch
has been transformed and predicted with the stored models. -/
def updated_clusters (p0 : Profile) (m : StoredModels) (recs : List VLTRecord)
    (xs : List (List ℚ)) : List Cluster :=
  update_cluster_stats p0.clusters recs
    (gmmPredict m.gmmSeed m.gmmK (pcaTransform m.pcaK xs)).1
    (gmmPredict m.gmmSeed m.gmmK (pcaTransform m.pcaK xs)).2
    (extract_features recs).1 (extract_features recs).2

/-- The body of `update_profile` after the profile and models have been
loaded: extract, transform through the stored scaler and PCA, predict
with the stored mixture model, merge cluster statistics, bump counters
and recompute the aggregate statistics. -/
def updateCore (uid : String) (p0 : Profile) (m : StoredModels) (now : String)
    (recs : List VLTRecord) : Except PErr Profile :=
  match scalerTransform m.scalerDim (extract_features recs).1 with
  | .error e => .error e
  | .ok xs =>
    .ok { p0 with
           clusters := updated_clusters p0 m recs xs,
           n_records := p0.n_records + recs.length,
           updated_at := now,
           statistics := compute_statistics (get_all_vlt_records uid)
             (updated_clusters p0 m recs xs) }

/-- Embedding of `update_profile`, instrumented with a trace of the
stages entered. -/
def update_profileT (now : String) (st : ProfilerState) (uid : String)
    (recs : List VLTRecord) :
    Except PErr (Profile × ProfilerState) × List String :=
  match get_profile st uid with
  | (none, _) => (.error (.profileNotFound uid), ["get_profile"])
  | (some p0, st1) =>
    match lookupA st1.modelsDisk uid with
    | none =>
      (.error (.libraryError "joblib.load: models file not found"),
       ["get_profile", "load_models"])
    | some m =>
      match updateCore uid p0 m now recs with
      | .error e =>
        (.error e,
         ["get_profile", "load_models", "extract_features", "transform_predict"])
      | .ok p1 =>
        (.ok (p1, saveAndCache st1 uid p1 m),
         ["get_profile", "load_models", "extract_features", "transform_predict",
          "update_cluster_stats", "save_profile"])

/-- Embedding of `update_profile` (result only). -/
def update_profile (now : String) (st : ProfilerState) (uid : String)
    (recs : List VLTRecord) : Except PErr (Profile × ProfilerState) :=
  (update_profileT now st uid recs).1

/-! ## Projections used to state the claims -/

/-- The statistics of a successful create/update result. -/
def resultStats (r : Except PErr (Profile × ProfilerState)) : Option Stats :=
  match r with
  | .ok q => some q.1.statistics
  | .error _ => none

/-- The stored record count of a successful create/update result. -/
def resultCount (r : Except PErr (Profile × ProfilerState)) : Option Nat :=
  match r with
  | .ok q => some q.1.n_records
  | .error _ => none

/-- The cluster list of a successful create/update result. -/
def resultClusters (r : Except PErr (Profile × ProfilerState)) :
    Option (List Cluster) :=
  match r with
  | .ok q => some q.1.clusters
  | .error _ => none

/-- The hard labels produced by the fitting pipeline of `create_profile`. -/
def fitLabels (entropy : Nat) (records : List VLTRecord) (nClusters : Nat) :
    Option (List Nat) :=
  match fitPipeline entropy records nClusters with
  | .ok q => some q.2.2.1
  | .error _ => none

/-- Formalisation of claim C3 as stated: the count of every new record is
added to the size counter of the cluster *whose id* the stored mixture
model assigns it to, and a cluster with id receiving new records has its
dominant attributes recomputed from exactly those new records. -/
def claimedUpdateProperty (existing : List Cluster) (records : List VLTRecord)
    (labels : List Nat) (probs feats : List (List ℚ))
    (names : List String) : Prop :=
  ∀ c1 ∈ update_cluster_stats existing records labels probs feats names,
    ∀ c0 ∈ existing, c0.id = c1.id →
      c1.size = c0.size + labels.count c0.id ∧
      (labels.count c0.id ≠ 0 →
        c1.dominant_attributes = find_dominant_attributes
          (((labels.zip records).filter (fun w => w.1 == c0.id)).map (fun w => w.2)))

/-! ## Helper lemmas -/

theorem insertOrd_perm {α : Type} (lt : α → α → Bool) (x : α) :
    ∀ l : List α, (insertOrd lt x l).Perm (x :: l)
  | [] => List.Perm.refl _
  | y :: ys => by
      unfold insertOrd
      cases hxy : lt x y
      · simp only [Bool.false_eq_true, if_false]
        exact ((insertOrd_perm lt x ys).cons y).trans (List.Perm.swap x y ys)
      · simp only [if_true]
        exact List.Perm.refl _

theorem foldl_insert_perm {α : Type} (lt : α → α → Bool) :
    ∀ (l acc : List α),
      (l.foldl (fun a x => insertOrd lt x a) acc).Perm (l ++ acc)
  | [], acc => by simp
  | a :: t, acc => by
      simp only [List.foldl_cons, List.cons_append]
      refine (foldl_insert_perm lt t (insertOrd lt a acc)).trans ?_
      refine (List.Perm.append_left t (insertOrd_perm lt a acc)).trans ?_
      exact List.perm_middle

theorem sortByOrd_perm {α : Type} (lt : α → α → Bool) (l : List α) :
    (sortByOrd lt l).Perm l := by
  simpa [sortByOrd] using foldl_insert_perm lt l []

theorem sortByOrd_length {α : Type} (lt : α → α → Bool) (l : List α) :
    (sortByOrd lt l).length = l.length :=
  (sortByOrd_perm lt l).length_eq

theorem sum_map_sortByOrd {α M : Type} [AddCommMonoid M] (lt : α → α → Bool)
    (l : List α) (f : α → M) :
    ((sortByOrd lt l).map f).sum = (l.map f).sum :=
  ((sortByOrd_perm lt l).map f).sum_eq

theorem sum_map_addF {α : Type} (f g : α → Nat) :
    ∀ L : List α, (L.map (fun c => f c + g c)).sum = (L.map f).sum + (L.map g).sum
  | [] => by simp
  | a :: t => by
      simp only [List.map_cons, List.sum_cons, sum_map_addF f g t]
      omega

theorem sum_map_ite_zero (a : Nat) :
    ∀ L : List Nat, a ∉ L → (L.map (fun c => if a = c then 1 else 0)).sum = 0
  | [], _ => rfl
  | b :: t, h => by
      have hb : ¬ a = b := fun hba => h (hba ▸ List.mem_cons_self b t)
      have ht : a ∉ t := fun hmem => h (List.mem_cons_of_mem b hmem)
      simp only [List.map_cons, List.sum_cons, if_neg hb,
        sum_map_ite_zero a t ht]

theorem sum_map_ite_one (a : Nat) :
    ∀ n : Nat, a < n →
      ((List.range n).map (fun c => if a = c then 1 else 0)).sum = 1
  | 0, h => absurd h (Nat.not_lt_zero a)
  | n + 1, h => by
      rw [List.range_succ, List.map_append, List.sum_append]
      rcases Nat.lt_succ_iff_lt_or_eq.mp h with h1 | h1
      · have hne : ¬ a = n := fun hna => absurd (hna ▸ h1) (lt_irrefl a)
        rw [sum_map_ite_one a n h1]
        simp [if_neg hne]
      · subst h1
        rw [sum_map_ite_zero a (List.range a) (by simp)]
        simp

theorem count_range_sum :
    ∀ (l : List Nat) (n : Nat), (∀ x ∈ l, x < n) →
      ((List.range n).map (fun c => l.count c)).sum = l.length
  | [], n, _ => by simp
  | a :: t, n, h => by
      have ha : a < n := h a (List.mem_cons_self a t)
      have ht : ∀ x ∈ t, x < n := fun x hx => h x (List.mem_cons_of_mem a hx)
      have hcons : ∀ c : Nat, (a :: t).count c = t.count c + (if a = c then 1 else 0) := by
        intro c
        by_cases hc : a = c
        · subst hc
          simp [List.count_cons]
        · have hc2 : ¬ c = a := fun hx => hc hx.symm
          simp [List.count_cons, hc, hc2]
      calc ((List.range n).map (fun c => (a :: t).count c)).sum
          = ((List.range n).map (fun c => t.count c + (if a = c then 1 else 0))).sum := by
            simp only [hcons]
        _ = ((List.range n).map (fun c => t.count c)).sum
              + ((List.range n).map (fun c => if a = c then 1 else 0)).sum := by
            rw [sum_map_addF (fun c => t.count c) (fun c => if a = c then 1 else 0)]
        _ = t.length + 1 := by
            rw [count_range_sum t n ht, sum_map_ite_one a n ha]
        _ = (a :: t).length := by simp

theorem foldl_max_le_init : ∀ (l : List Nat) (a : Nat), a ≤ l.foldl max a
  | [], a => le_refl a
  | b :: t, a => le_trans (le_max_left a b) (foldl_max_le_init t (max a b))

theorem mem_le_foldl_max (x : Nat) :
    ∀ (l : List Nat) (a : Nat), x ∈ l → x ≤ l.foldl max a
  | [], _, hx => absurd hx (List.not_mem_nil x)
  | b :: t, a, hx => by
      rcases List.mem_cons.mp hx with h1 | h1
      · subst h1
        exact le_trans (le_max_right a x) (foldl_max_le_init t (max a x))
      · exact mem_le_foldl_max x t (max a b) h1

theorem sum_map_div_mul (g : Nat → Nat) (q r : ℚ) :
    ∀ L : List Nat,
      (L.map (fun c => (g c : ℚ) / q * r)).sum = (((L.map g).sum : Nat) : ℚ) / q * r
  | [] => by simp
  | a :: t => by
      simp only [List.map_cons, List.sum_cons, sum_map_div_mul g q r t]
      push_cast
      ring

/-- The central invariant of `_analyze_clusters`: with one label per
record, the cluster sizes sum to the batch size and the percentages sum to
exactly 100. -/
theorem analyze_clusters_sums (records : List VLTRecord) (labels : List Nat)
    (probs feats : List (List ℚ)) (names : List String)
    (hlen : labels.length = records.length) (hne : records ≠ []) :
    ((analyze_clusters records labels probs feats names).map (fun c => c.size)).sum
        = records.length ∧
    ((analyze_clusters records labels probs feats names).map (fun c => c.percentage)).sum
        = 100 := by
  have hbound : ∀ x ∈ labels, x < labelsMax labels + 1 := fun x hx =>
    Nat.lt_succ_of_le (mem_le_foldl_max x labels 0 hx)
  have hNne : records.length ≠ 0 := by
    cases records with
    | nil => exact absurd rfl hne
    | cons a t => simp
  have hN : ((records.length : Nat) : ℚ) ≠ 0 := Nat.cast_ne_zero.mpr hNne
  unfold analyze_clusters
  constructor
  · rw [sum_map_sortByOrd, List.map_map]
    have hcomp : ((fun c : Cluster => c.size) ∘ clusterOf records labels probs)
        = fun c => labels.count c := rfl
    rw [hcomp, count_range_sum labels _ hbound, hlen]
  · rw [sum_map_sortByOrd, List.map_map]
    have hcomp : ((fun c : Cluster => c.percentage) ∘ clusterOf records labels probs)
        = fun c => (labels.count c : ℚ) / (records.length : ℚ) * 100 := rfl
    rw [hcomp, sum_map_div_mul (fun c => labels.count c) (records.length : ℚ) 100,
      count_range_sum labels _ hbound, hlen, div_self hN]
    norm_num

theorem extract_features_fst_length (records : List VLTRecord) :
    (extract_features records).1.length = records.length := by
  simp [extract_features]

theorem featureRow_length (r : VLTRecord) (voc : List (String × List String)) :
    (featureRow voc r).length = (featureNames voc).length := by
  induction voc with
  | nil => rfl
  | cons p t ih =>
      simp only [featureRow, featureNames, List.flatMap_cons, List.length_append,
        List.length_map] at ih ⊢
      omega

theorem scalerFitTransform_ok (x : List (List ℚ)) (d : Nat) (xs : List (List ℚ))
    (h : scalerFitTransform x = .ok (d, xs)) :
    xs = x ∧ x.length ≠ 0 ∧ (x.headD []).length = d ∧ d ≠ 0 := by
  unfold scalerFitTransform at h
  by_cases h1 : x.length = 0
  · rw [if_pos h1] at h
    exact absurd h (by simp)
  · rw [if_neg h1] at h
    by_cases h2 : (x.headD []).length = 0
    · rw [if_pos h2] at h
      exact absurd h (by simp)
    · rw [if_neg h2] at h
      simp only [Except.ok.injEq, Prod.mk.injEq] at h
      exact ⟨h.2.symm, h1, h.1, fun hd => h2 (by rw [h.1, hd])⟩

theorem scalerTransform_ok (dim : Nat) (x xs : List (List ℚ))
    (h : scalerTransform dim x = .ok xs) : xs = x ∧ x.length ≠ 0 := by
  unfold scalerTransform at h
  by_cases h1 : x.length = 0
  · rw [if_pos h1] at h
    exact absurd h (by simp)
  · rw [if_neg h1] at h
    by_cases h2 : (x.headD []).length = 0
    · rw [if_pos h2] at h
      exact absurd h (by simp)
    · rw [if_neg h2] at h
      by_cases h3 : (x.headD []).length ≠ dim
      · rw [if_pos h3] at h
        exact absurd h (by simp)
      · rw [if_neg h3] at h
        simp only [Except.ok.injEq] at h
        exact ⟨h.symm, h1⟩

theorem gmmFitPredict_ok (rs : Option Nat) (e k : Nat) (x : List (List ℚ))
    (labels : List Nat) (probs : List (List ℚ))
    (h : gmmFitPredict rs e k x = .ok (labels, probs)) :
    labels = (List.range x.length).map (fun i => (i + rs.getD e) % k) ∧
    labels.length = x.length ∧ k ≠ 0 := by
  unfold gmmFitPredict at h
  by_cases h1 : k = 0
  · rw [if_pos h1] at h
    exact absurd h (by simp)
  · rw [if_neg h1] at h
    by_cases h2 : x.length < k
    · rw [if_pos h2] at h
      exact absurd h (by simp)
    · rw [if_neg h2] at h
      simp only [Except.ok.injEq, Prod.mk.injEq] at h
      refine ⟨h.1.symm, ?_, h1⟩
      rw [← h.1]
      simp

theorem fitPipeline_ok (e : Nat) (recs : List VLTRecord) (k dim pk : Nat)
    (labels : List Nat) (probs : List (List ℚ))
    (h : fitPipeline e recs k = .ok (dim, pk, labels, probs)) :
    labels.length = recs.length := by
  unfold fitPipeline at h
  split at h
  · exact absurd h (by simp)
  · rename_i q d0 xs hs
    split at h
    · exact absurd h (by simp)
    · rename_i q2 ls ps hg
      simp only [Except.ok.injEq, Prod.mk.injEq] at h
      obtain ⟨-, -, hl, -⟩ := h
      have h1 := (gmmFitPredict_ok _ _ _ _ _ _ hg).2.1
      have h2 := (scalerFitTransform_ok _ _ _ hs).1
      rw [← hl, h1, h2]
      simp [pcaFitTransform, extract_features_fst_length]

theorem create_ok (e : Nat) (now : String) (st : ProfilerState) (uid : String)
    (recs : List VLTRecord) (k : Nat) (p : Profile) (st2 : ProfilerState)
    (h : create_profile e now st uid recs k = .ok (p, st2)) :
    ∃ dim pk labels probs,
      fitPipeline e recs k = .ok (dim, pk, labels, probs) ∧
      p = assembled_profile now uid recs k labels probs := by
  unfold create_profile create_profileT at h
  split at h
  · exact absurd h (by simp)
  · rename_i q dim pk labels probs hf
    simp only [Prod.mk.injEq, Except.ok.injEq] at h
    exact ⟨dim, pk, labels, probs, hf, h.1.symm⟩

theorem updateCore_ok (uid : String) (p0 : Profile) (m : StoredModels)
    (now : String) (recs : List VLTRecord) (p1 : Profile)
    (h : updateCore uid p0 m now recs = .ok p1) :
    recs ≠ [] ∧
    ∃ xs, scalerTransform m.scalerDim (extract_features recs).1 = .ok xs ∧
      p1 = { p0 with
              clusters := updated_clusters p0 m recs xs,
              n_records := p0.n_records + recs.length,
              updated_at := now,
              statistics := compute_statistics (get_all_vlt_records uid)
                (updated_clusters p0 m recs xs) } := by
  unfold updateCore at h
  split at h
  · exact absurd h (by simp)
  · rename_i xs hs
    simp only [Except.ok.injEq] at h
    have hlen := (scalerTransform_ok _ _ _ hs).2
    rw [extract_features_fst_length] at hlen
    refine ⟨fun hr => hlen (by rw [hr]; rfl), xs, hs, h.symm⟩

theorem update_ok (now : String) (st : ProfilerState) (uid : String)
    (recs : List VLTRecord) (p : Profile) (st2 : ProfilerState)
    (h : update_profile now st uid recs = .ok (p, st2)) :
    ∃ p0 m, (get_profile st uid).1 = some p0 ∧
      lookupA (get_profile st uid).2.modelsDisk uid = some m ∧
      updateCore uid p0 m now recs = .ok p := by
  unfold update_profile update_profileT at h
  split at h
  · rename_i st1 hg
    exact absurd h (by simp)
  · rename_i q p0 st1 hg
    split at h
    · exact absurd h (by simp)
    · rename_i m hm
      split at h
      · exact absurd h (by simp)
      · rename_i p1 hc
        simp only [Prod.mk.injEq, Except.ok.injEq] at h
        exact ⟨p0, m, by rw [hg], by rw [hg, hm], h.1 ▸ hc⟩

/-! ## Concrete fixtures used by witnesses and counterexamples -/

/-- A record with one populated attribute. -/
def recA : VLTRecord := { attributes := [("silhouette", "fitted")] }

/-- A record with an attribute and a style descriptor. -/
def recB : VLTRecord :=
  { attributes := [("silhouette", "flowing")], style := [("aesthetic", "romantic")] }

/-- A stored cluster used by the update fixtures. -/
def wCluster : Cluster := ⟨0, 1, 100, [], 1, [], "S"⟩

/-- Arbitrary pre-update statistics of the stored profile. -/
def wStats : Stats := ⟨[], [], [], 1, 100⟩

/-- A stored single-cluster profile for the fixture user id. -/
def wProfile : Profile := ⟨"u", 1, 1, [wCluster], wStats, [], "t0", "t0"⟩

/-- Stored fitted models matching one feature column and one component. -/
def wModels : StoredModels := ⟨1, 1, 1, 42⟩

/-- A profiler state holding `wProfile` (cached and on disk) for the
fixture user id. -/
def wState : ProfilerState := ⟨[("u", wProfile)], [("u", wProfile)], [("u", wModels)]⟩

/-- The statistics every successful update produces (distributions from the
empty record list; the largest-cluster percentage survives from the
stored clusters). -/
def wStatsOut : Stats := ⟨[], [], [], 0, 100⟩

/-! ## Claims -/

/-- C2.  The spec says `create` with an empty record list fails with the
`InsufficientData` validation error before any feature extraction.  The
code has no such validation: the empty batch flows into
`_extract_features` (which returns normally) and the call dies inside
`StandardScaler.fit` with a generic library error; no code path produces
`InsufficientData`. -/
theorem C2_empty_create_not_insufficient_data (e : Nat) (now : String)
    (st : ProfilerState) (uid : String) (k : Nat) :
    create_profile e now st uid [] k =
      .error (.libraryError "StandardScaler.fit: 0 samples") ∧
    create_profile e now st uid [] k ≠ .error .insufficientData ∧
    "extract_features" ∈ (create_profileT e now st uid [] k).2 := by
  refine ⟨rfl, by simp [create_profile, create_profileT, fitPipeline,
    extract_features, scalerFitTransform], ?_⟩
  show "extract_features" ∈ ["extract_features", "fit_models"]
  simp

/-- C7.  `update_profile` for an identity with no cached and no persisted
profile fails with the profile-not-found error, and neither feature
extraction nor prediction is entered. -/
theorem C7_update_unknown_profile_not_found (now : String) (st : ProfilerState)
    (uid : String) (recs : List VLTRecord)
    (hcache : lookupA st.profiles uid = none)
    (hdisk : lookupA st.disk uid = none) :
    (update_profileT now st uid recs).1 = .error (.profileNotFound uid) ∧
    "extract_features" ∉ (update_profileT now st uid recs).2 ∧
    "transform_predict" ∉ (update_profileT now st uid recs).2 := by
  have hg : get_profile st uid = (none, st) := by
    unfold get_profile
    rw [hcache, hdisk]
  have hu : update_profileT now st uid recs =
      (.error (.profileNotFound uid), ["get_profile"]) := by
    unfold update_profileT
    rw [hg]
  rw [hu]
  exact ⟨rfl, by simp, by simp⟩

/-- Witness for C7 at the empty initial state. -/
theorem C7_witness :
    (lookupA initState.profiles "u" = none ∧ lookupA initState.disk "u" = none) ∧
    ((update_profileT "t" initState "u" [recA]).1 = .error (.profileNotFound "u") ∧
     "extract_features" ∉ (update_profileT "t" initState "u" [recA]).2 ∧
     "transform_predict" ∉ (update_profileT "t" initState "u" [recA]).2) :=
  ⟨⟨rfl, rfl⟩, C7_update_unknown_profile_not_found "t" initState "u" [recA] rfl rfl⟩

/-- C9.  `create_profile` is deterministic in everything but its inputs:
the ambient entropy available to the library fits (pinned out by
`random_state=42`), the wall-clock timestamps and the pre-existing store
state do not influence the fitted cluster labels or the produced cluster
list (hence in particular the per-cluster style names). -/
theorem C9_create_deterministic (e1 e2 : Nat) (now1 now2 : String)
    (st1 st2 : ProfilerState) (uid : String) (recs : List VLTRecord) (k : Nat) :
    fitLabels e1 recs k = fitLabels e2 recs k ∧
    resultClusters (create_profile e1 now1 st1 uid recs k) =
      resultClusters (create_profile e2 now2 st2 uid recs k) := by
  have hgmm : ∀ (k0 : Nat) (x : List (List ℚ)),
      gmmFitPredict (some 42) e1 k0 x = gmmFitPredict (some 42) e2 k0 x :=
    fun _ _ => rfl
  have hfit : fitPipeline e1 recs k = fitPipeline e2 recs k := by
    simp only [fitPipeline, hgmm]
  constructor
  · unfold fitLabels
    rw [hfit]
  · unfold resultClusters create_profile create_profileT
    rw [hfit]
    cases hf : fitPipeline e2 recs k with
    | error er => rfl
    | ok q =>
        obtain ⟨dim, pk, labels, probs⟩ := q
        rfl

/-- C10.  `_summarize_cluster_style` returns one of the seven archetype
names or a name composed of exactly two parts joined by a space; the
fallback always assembles exactly two parts, so the generic
"Mixed Style" placeholder branch is unreachable.  (The *string*
"Mixed Style" can still arise as a composed name, e.g. from aesthetic
"mixed" with fabrication "style"; the dead code is the placeholder
branch, not the string.) -/
theorem C10_style_name_shape (d : List (String × String × Nat)) :
    (fallbackParts (getDom d "style_aesthetic") (getDom d "style_overall")
        (getDom d "silhouette") (getDom d "fabrication")).length = 2 ∧
    (summarize_cluster_style d ∈ archetypeNames ∨
      ∃ p q,
        fallbackParts (getDom d "style_aesthetic") (getDom d "style_overall")
            (getDom d "silhouette") (getDom d "fabrication") = [p, q] ∧
        summarize_cluster_style d = p ++ " " ++ q) := by
  have hparts : ∀ a o s f, (fallbackParts a o s f).length = 2 := by
    intro a o s f
    unfold fallbackParts
    split_ifs <;> rfl
  refine ⟨hparts _ _ _ _, ?_⟩
  unfold summarize_cluster_style
  dsimp only
  have hEx : ∃ p q,
      fallbackParts (getDom d "style_aesthetic") (getDom d "style_overall")
        (getDom d "silhouette") (getDom d "fabrication") = [p, q] := by
    have h2 := hparts (getDom d "style_aesthetic") (getDom d "style_overall")
      (getDom d "silhouette") (getDom d "fabrication")
    cases hF : fallbackParts (getDom d "style_aesthetic") (getDom d "style_overall")
        (getDom d "silhouette") (getDom d "fabrication") with
    | nil => rw [hF] at h2; simp at h2
    | cons p t =>
        cases t with
        | nil => rw [hF] at h2; simp at h2
        | cons q u =>
            cases u with
            | nil => exact ⟨p, q, rfl⟩
            | cons a b => rw [hF] at h2; simp at h2
  obtain ⟨p, q, hpq⟩ := hEx
  split_ifs with h1 h2 h3 h4 h5 h6 h7 h8
  · left; simp [archetypeNames]
  · left; simp [archetypeNames]
  · left; simp [archetypeNames]
  · left; simp [archetypeNames]
  · left; simp [archetypeNames]
  · left; simp [archetypeNames]
  · left; simp [archetypeNames]
  · right
    refine ⟨p, q, hpq, ?_⟩
    rw [hpq]
    simp [joinSpace]
  · exfalso
    rw [hpq] at h8
    exact h8 (by simp)

/-- C1.  For every non-empty batch, the cluster list of the profile
returned by `create_profile` has sizes summing to the batch size and
percentages summing to exactly 100 (exact in `ℚ`; the source computes the
same quantity in floating point, hence the rounding caveat of the spec). -/
theorem C1_cluster_sizes_and_percentages (e : Nat) (now : String)
    (st : ProfilerState) (uid : String) (recs : List VLTRecord) (k : Nat)
    (hne : recs ≠ [])
    (hok : resultClusters (create_profile e now st uid recs k) ≠ none) :
    (resultClusters (create_profile e now st uid recs k)).map
        (fun cl => (cl.map (fun c => c.size)).sum) = some recs.length ∧
    (resultClusters (create_profile e now st uid recs k)).map
        (fun cl => (cl.map (fun c => c.percentage)).sum) = some 100 := by
  obtain ⟨cl, hcl⟩ : ∃ cl,
      resultClusters (create_profile e now st uid recs k) = some cl := by
    cases hr : resultClusters (create_profile e now st uid recs k) with
    | none => exact absurd hr hok
    | some cl => exact ⟨cl, rfl⟩
  rw [hcl]
  unfold resultClusters at hcl
  split at hcl
  · rename_i q hq
    obtain ⟨p, st2⟩ := q
    simp only [Option.some.injEq] at hcl
    obtain ⟨dim, pk, labels, probs, hf, hp⟩ := create_ok e now st uid recs k p st2 hq
    have hlen := fitPipeline_ok e recs k dim pk labels probs hf
    have hsum := analyze_clusters_sums recs labels probs
      (extract_features recs).1 (extract_features recs).2 hlen hne
    have hcl2 : cl = analyze_clusters recs labels probs
        (extract_features recs).1 (extract_features recs).2 := by
      rw [← hcl, hp]
      rfl
    rw [hcl2]
    exact ⟨by simpa using hsum.1, by simpa using hsum.2⟩
  · exact absurd hcl (by simp)

/-- Witness for C1 on a concrete two-record batch. -/
theorem C1_witness :
    (([recA, recB] : List VLTRecord) ≠ [] ∧
     resultClusters (create_profile 0 "t" initState "u" [recA, recB] 1) ≠ none) ∧
    ((resultClusters (create_profile 0 "t" initState "u" [recA, recB] 1)).map
        (fun cl => (cl.map (fun c => c.size)).sum) =
          some ([recA, recB] : List VLTRecord).length ∧
     (resultClusters (create_profile 0 "t" initState "u" [recA, recB] 1)).map
        (fun cl => (cl.map (fun c => c.percentage)).sum) = some 100) :=
  ⟨⟨by simp, by decide⟩,
   C1_cluster_sizes_and_percentages 0 "t" initState "u" [recA, recB] 1
     (by simp) (by decide)⟩

/-- C5 counterexample.  A non-empty batch (one record, none of whose
optional fields are populated) with a requested component count above the
batch size: the component count is clamped, but `create_profile` still
raises, because the batch yields a zero-column feature matrix that the
scaler fit rejects.  "Never raise" as claimed is therefore false. -/
theorem C5_counterexample :
    ([({} : VLTRecord)] : List VLTRecord) ≠ [] ∧
    ([({} : VLTRecord)] : List VLTRecord).length < 2 ∧
    create_profile 0 "t" initState "u" [{}] 2 =
      .error (.libraryError "StandardScaler.fit: 0 features") :=
  ⟨by simp, by simp, rfl⟩

/-- C5 (amended).  For a non-empty batch of `N` records with a requested
component count `k > N`, `create_profile` clamps the component count to
`max(1, N)`; it completes without raising provided the batch populates at
least one categorical value (equivalently, feature extraction yields at
least one column — otherwise the zero-column matrix makes the scaler fit
raise a generic library error, as the counterexample shows). -/
theorem C5_clamp_and_complete (e : Nat) (now : String) (st : ProfilerState)
    (uid : String) (recs : List VLTRecord) (k : Nat)
    (hne : recs ≠ []) (hk : recs.length < k)
    (hnames : (extract_features recs).2 ≠ []) :
    ∃ p st2, create_profile e now st uid recs k = .ok (p, st2) ∧
      p.n_clusters = max 1 recs.length := by
  obtain ⟨r0, rest, hrec⟩ : ∃ r0 rest, recs = r0 :: rest := by
    cases recs with
    | nil => exact absurd rfl hne
    | cons a t => exact ⟨a, t, rfl⟩
  subst hrec
  have hhead : (extract_features (r0 :: rest)).1.headD []
      = featureRow (collect_vocab (r0 :: rest)) r0 := by
    simp [extract_features]
  have hdlen : ((extract_features (r0 :: rest)).1.headD []).length
      = (extract_features (r0 :: rest)).2.length := by
    rw [hhead]
    exact featureRow_length r0 (collect_vocab (r0 :: rest))
  have hd0 : ((extract_features (r0 :: rest)).1.headD []).length ≠ 0 := by
    rw [hdlen]
    exact fun h0 => hnames (List.length_eq_zero.mp h0)
  have hxne : (extract_features (r0 :: rest)).1.length ≠ 0 := by
    rw [extract_features_fst_length]
    simp
  have hs : scalerFitTransform (extract_features (r0 :: rest)).1 =
      .ok (((extract_features (r0 :: rest)).1.headD []).length,
           (extract_features (r0 :: rest)).1) := by
    unfold scalerFitTransform
    rw [if_neg hxne, if_neg hd0]
  have hclamp : clampClusters (r0 :: rest).length k = (r0 :: rest).length := by
    unfold clampClusters
    rw [if_pos hk]
    simp only [List.length_cons]
    omega
  have hkne : clampClusters (r0 :: rest).length k ≠ 0 := by
    rw [hclamp]
    simp
  have hsamples :
      ¬ ((pcaFitTransform (extract_features (r0 :: rest)).1).2.length
          < clampClusters (r0 :: rest).length k) := by
    rw [hclamp]
    unfold pcaFitTransform
    simp [extract_features_fst_length]
  obtain ⟨labels, probs, hg⟩ : ∃ labels probs,
      gmmFitPredict (some 42) e (clampClusters (r0 :: rest).length k)
        (pcaFitTransform (extract_features (r0 :: rest)).1).2 = .ok (labels, probs) := by
    unfold gmmFitPredict
    rw [if_neg hkne, if_neg hsamples]
    exact ⟨_, _, rfl⟩
  have hfit : fitPipeline e (r0 :: rest) k =
      .ok (((extract_features (r0 :: rest)).1.headD []).length,
           (pcaFitTransform (extract_features (r0 :: rest)).1).1, labels, probs) := by
    simp only [fitPipeline, hs, hg]
  refine ⟨assembled_profile now uid (r0 :: rest) k labels probs,
          saveAndCache st uid (assembled_profile now uid (r0 :: rest) k labels probs)
            ⟨((extract_features (r0 :: rest)).1.headD []).length,
             (pcaFitTransform (extract_features (r0 :: rest)).1).1,
             clampClusters (r0 :: rest).length k, 42⟩, ?_, ?_⟩
  · unfold create_profile create_profileT
    rw [hfit]
  · show (assembled_profile now uid (r0 :: rest) k labels probs).n_clusters
        = max 1 (r0 :: rest).length
    simp only [assembled_profile]
    unfold clampClusters
    rw [if_pos hk]

/-- Witness for C5 (amended) on a one-record batch with four requested
components. -/
theorem C5_witness :
    (([recA] : List VLTRecord) ≠ [] ∧ ([recA] : List VLTRecord).length < 4 ∧
     (extract_features [recA]).2 ≠ []) ∧
    (∃ p st2, create_profile 0 "t" initState "u" [recA] 4 = .ok (p, st2) ∧
      p.n_clusters = max 1 ([recA] : List VLTRecord).length) :=
  ⟨⟨by simp, by simp, by decide⟩,
   C5_clamp_and_complete 0 "t" initState "u" [recA] 4 (by simp) (by simp) (by decide)⟩

/-- A stored cluster with id 1 listed first (largest — `_analyze_clusters`
sorts clusters by size, so list position need not equal cluster id). -/
def cexClusterA : Cluster := ⟨1, 2, 200 / 3, [], 1, [], "A"⟩

/-- A stored cluster with id 0 listed second (smallest). -/
def cexClusterB : Cluster := ⟨0, 1, 100 / 3, [], 1, [], "B"⟩

/-- C3 counterexample.  Stored clusters `[id 1 (size 2), id 0 (size 1)]`
(a size-sorted order `create_profile` can produce) and one new record the
stored model assigns to cluster 0: `_update_cluster_stats` increments the
cluster at list *position* 0 — which is the cluster with id 1 — and
leaves the cluster with id 0 untouched, so the claim (counts added to the
cluster the model assigns the record to) fails. -/
theorem C3_counterexample :
    ¬ claimedUpdateProperty [cexClusterA, cexClusterB] [recA] [0] [[1, 0]]
        [[1]] ["silhouette_fitted"] := by
  unfold claimedUpdateProperty
  decide

/-- C3 (amended).  `_update_cluster_stats` walks the stored cluster list
with `enumerate`: the cluster at list position `i` (not the cluster whose
id is `i`) receives the new records whose predicted label is `i`; its
size counter grows by their number and its dominant attributes are
recomputed from exactly those new-batch records (no blend with historical
data); a position receiving no new records is returned unchanged. -/
theorem C3_update_adds_by_position (existing : List Cluster)
    (records : List VLTRecord) (labels : List Nat)
    (probs feats : List (List ℚ)) (names : List String)
    (i : Nat) (hi : i < existing.length) :
    ∃ hri : i < (update_cluster_stats existing records labels probs feats names).length,
      (update_cluster_stats existing records labels probs feats names).get ⟨i, hri⟩ =
        (if (((labels.zip records).filter (fun w => w.1 == i)).map (fun w => w.2)).length ≠ 0
         then { existing.get ⟨i, hi⟩ with
                size := (existing.get ⟨i, hi⟩).size +
                  (((labels.zip records).filter (fun w => w.1 == i)).map (fun w => w.2)).length,
                dominant_attributes := find_dominant_attributes
                  (((labels.zip records).filter (fun w => w.1 == i)).map (fun w => w.2)) }
         else existing.get ⟨i, hi⟩) := by
  have hlen : (update_cluster_stats existing records labels probs feats names).length
      = existing.length := by
    simp [update_cluster_stats]
  refine ⟨by rw [hlen]; exact hi, ?_⟩
  simp only [List.get_eq_getElem]
  unfold update_cluster_stats
  rw [List.getElem_map, List.getElem_enum]

/-- Witness for C3 (amended) at position 0 of the counterexample state:
the record labelled 0 is merged into the cluster at position 0, whose id
is 1. -/
theorem C3_witness :
    (0 < ([cexClusterA, cexClusterB] : List Cluster).length) ∧
    (∃ hri : 0 < (update_cluster_stats [cexClusterA, cexClusterB] [recA] [0] [[1, 0]]
        [[1]] ["silhouette_fitted"]).length,
      (update_cluster_stats [cexClusterA, cexClusterB] [recA] [0] [[1, 0]]
          [[1]] ["silhouette_fitted"]).get ⟨0, hri⟩ =
        (if ((([0].zip [recA]).filter (fun w => w.1 == 0)).map (fun w => w.2)).length ≠ 0
         then { ([cexClusterA, cexClusterB] : List Cluster).get ⟨0, by decide⟩ with
                size := (([cexClusterA, cexClusterB] : List Cluster).get ⟨0, by decide⟩).size +
                  ((([0].zip [recA]).filter (fun w => w.1 == 0)).map (fun w => w.2)).length,
                dominant_attributes := find_dominant_attributes
                  ((([0].zip [recA]).filter (fun w => w.1 == 0)).map (fun w => w.2)) }
         else ([cexClusterA, cexClusterB] : List Cluster).get ⟨0, by decide⟩)) :=
  ⟨by decide,
   C3_update_adds_by_position [cexClusterA, cexClusterB] [recA] [0] [[1, 0]]
     [[1]] ["silhouette_fitted"] 0 (by decide)⟩

/-- C4.  After every successful `update_profile` the statistics are
recomputed from `_get_all_vlt_records`, whose database fetch is
unimplemented and returns the empty list: the garment, color and style
distributions come out as empty mappings and the diversity score as 0,
whatever the new records were. -/
theorem C4_update_statistics_emptied (now : String) (st : ProfilerState)
    (uid : String) (recs : List VLTRecord)
    (hok : resultStats (update_profile now st uid recs) ≠ none) :
    (resultStats (update_profile now st uid recs)).map
        (fun s => s.garment_distribution) = some [] ∧
    (resultStats (update_profile now st uid recs)).map
        (fun s => s.color_distribution) = some [] ∧
    (resultStats (update_profile now st uid recs)).map
        (fun s => s.style_distribution) = some [] ∧
    (resultStats (update_profile now st uid recs)).map
        (fun s => s.diversity_score) = some 0 := by
  obtain ⟨s, hsx⟩ : ∃ s, resultStats (update_profile now st uid recs) = some s := by
    cases hr : resultStats (update_profile now st uid recs) with
    | none => exact absurd hr hok
    | some s => exact ⟨s, rfl⟩
  rw [hsx]
  unfold resultStats at hsx
  split at hsx
  · rename_i q hq
    obtain ⟨p, st2⟩ := q
    simp only [Option.some.injEq] at hsx
    obtain ⟨p0, m, -, -, hc⟩ := update_ok now st uid recs p st2 hq
    obtain ⟨-, xs, -, hp⟩ := updateCore_ok uid p0 m now recs p hc
    have hstat : s = compute_statistics [] (updated_clusters p0 m recs xs) := by
      rw [← hsx, hp]
      rfl
    rw [hstat]
    refine ⟨?_, ?_, ?_, ?_⟩ <;> simp [compute_statistics]
  · exact absurd hsx (by simp)

/-- Witness for C4 on a stored one-cluster profile and a one-record batch. -/
theorem C4_witness :
    (resultStats (update_profile "t1" wState "u" [recA]) ≠ none) ∧
    ((resultStats (update_profile "t1" wState "u" [recA])).map
        (fun s => s.garment_distribution) = some [] ∧
     (resultStats (update_profile "t1" wState "u" [recA])).map
        (fun s => s.color_distribution) = some [] ∧
     (resultStats (update_profile "t1" wState "u" [recA])).map
        (fun s => s.style_distribution) = some [] ∧
     (resultStats (update_profile "t1" wState "u" [recA])).map
        (fun s => s.diversity_score) = some 0) :=
  ⟨by decide, C4_update_statistics_emptied "t1" wState "u" [recA] (by decide)⟩

/-- C8.  A successful `update_profile` stores a record count equal to the
old count plus the batch size, and the increase is strict: an empty batch
cannot update successfully, because the stored scaler rejects an empty
sample axis. -/
theorem C8_update_increases_count (now : String) (st : ProfilerState)
    (uid : String) (recs : List VLTRecord) (n0 n : Nat)
    (hp0 : ((get_profile st uid).1).map (fun p => p.n_records) = some n0)
    (h : resultCount (update_profile now st uid recs) = some n) :
    n = n0 + recs.length ∧ n0 < n := by
  unfold resultCount at h
  split at h
  · rename_i q hq
    obtain ⟨p, st2⟩ := q
    simp only [Option.some.injEq] at h
    obtain ⟨p0, m, hp0x, -, hc⟩ := update_ok now st uid recs p st2 hq
    rw [hp0x] at hp0
    simp only [Option.map_some', Option.some.injEq] at hp0
    obtain ⟨hne, xs, -, hp⟩ := updateCore_ok uid p0 m now recs p hc
    have hn : p.n_records = p0.n_records + recs.length := by
      rw [hp]
    have hpos : 0 < recs.length := List.length_pos.mpr hne
    constructor
    · rw [← h, hn, hp0]
    · rw [← h, hn, hp0]
      omega
  · exact absurd h (by simp)

/-- Witness for C8: updating the stored one-record profile with one new
record yields a stored count of 2. -/
theorem C8_witness :
    (((get_profile wState "u").1).map (fun p => p.n_records) = some 1 ∧
     resultCount (update_profile "t1" wState "u" [recA]) = some 2) ∧
    (2 = 1 + ([recA] : List VLTRecord).length ∧ 1 < 2) :=
  ⟨⟨by decide, by decide⟩,
   C8_update_increases_count "t1" wState "u" [recA] 1 2 (by decide) (by decide)⟩

theorem encodeCell_empty (r : VLTRecord) (ha : r.attributes = [])
    (hc : r.colors = []) (hs : r.style = []) :
    ∀ k v, encodeCell r k v = 0 := by
  intro k v
  unfold encodeCell lookupA
  rw [ha, hc, hs]
  split_ifs <;> simp_all [List.find?]

theorem featureRow_zero (r : VLTRecord) (h : ∀ k v, encodeCell r k v = 0)
    (voc : List (String × List String)) :
    featureRow voc r = List.replicate (featureNames voc).length 0 := by
  induction voc with
  | nil => rfl
  | cons p t ih =>
      have hmap : ∀ L : List String,
          L.map (fun v => encodeCell r p.1 v) = List.replicate L.length (0 : ℚ) := by
        intro L
        induction L with
        | nil => rfl
        | cons a u ihL => simp [h, ihL, List.replicate_succ]
      simp only [featureRow, featureNames, List.flatMap_cons, List.length_append,
        List.length_map] at ih ⊢
      rw [hmap, ih, ← List.replicate_add]

/-- C6.  Feature extraction is total on records with absent optional
fields (absence is no evidence, not an error): the extracted matrix
always has one row per record, and a record with no populated attribute,
color or style fields contributes an all-zero feature row (of the full
batch column width). -/
theorem C6_missing_fields_zero_row (records : List VLTRecord) (i : Nat)
    (hi : i < records.length)
    (ha : (records.getD i {}).attributes = [])
    (hc : (records.getD i {}).colors = [])
    (hs : (records.getD i {}).style = []) :
    (extract_features records).1.length = records.length ∧
    (extract_features records).1.getD i [] =
      List.replicate (extract_features records).2.length (0 : ℚ) := by
  refine ⟨extract_features_fst_length records, ?_⟩
  have h1 : i < (records.map (featureRow (collect_vocab records))).length := by
    simpa using hi
  have hmap : (extract_features records).1.getD i [] =
      featureRow (collect_vocab records) (records.getD i {}) := by
    unfold extract_features
    dsimp only
    rw [List.getD_eq_getElem _ _ h1, List.getElem_map, List.getD_eq_getElem _ _ hi]
  rw [hmap]
  exact featureRow_zero _ (encodeCell_empty _ ha hc hs) _

/-- Witness for C6 on a batch whose second record has no populated fields. -/
theorem C6_witness :
    (1 < ([recA, ({} : VLTRecord)] : List VLTRecord).length ∧
     (([recA, ({} : VLTRecord)] : List VLTRecord).getD 1 {}).attributes = [] ∧
     (([recA, ({} : VLTRecord)] : List VLTRecord).getD 1 {}).colors = [] ∧
     (([recA, ({} : VLTRecord)] : List VLTRecord).getD 1 {}).style = []) ∧
    ((extract_features [recA, ({} : VLTRecord)]).1.length =
        ([recA, ({} : VLTRecord)] : List VLTRecord).length ∧
     (extract_features [recA, ({} : VLTRecord)]).1.getD 1 [] =
        List.replicate (extract_features [recA, ({} : VLTRecord)]).2.length (0 : ℚ)) :=
  ⟨⟨by decide, rfl, rfl, rfl⟩,
   C6_missing_fields_zero_row [recA, {}] 1 (by decide) rfl rfl rfl⟩
